import Mathlib

/-!
Verification development for the Monitor-App backend (process monitoring,
BMS gateway log parsing, restart scheduling).

The Python sources `backend/bms_log_monitor.py`, `backend/process_monitor.py`
and `backend/restart_scheduler.py` are shallowly embedded below.  Log lines
are modelled as `List Char` (newline-free: `readlines`' trailing newlines are
stripped by `str.strip()` before every pattern that could be affected, and no
pattern is anchored at the end of a line).  Wall-clock instants are modelled
at integer-second granularity (`Int` seconds), which is the granularity of
every comparison appearing in the code (timeouts, wait durations, schedule
intervals are whole seconds).  The handful of regular expressions used by the
code are embedded as explicit scanners with Python `re.search` semantics
(leftmost match, greedy quantifiers); each scanner's doc comment names the
pattern it embeds.
-/

/-- Coercion from a Lean string literal to the `List Char` representation
used throughout this development. -/
def str (s : String) : List Char := s.data

/-- Python `\s` character class (`str.strip`/`\s` both use it; only ASCII
whitespace occurs in the log files). -/
def pyIsSpace (c : Char) : Bool :=
  c = ' ' || c = '\t' || c = '\n' || c = '\r' || c = '\x0B' || c = '\x0C'

/-- Python `str.strip()`: remove leading and trailing whitespace. -/
def pyStrip (l : List Char) : List Char :=
  ((l.dropWhile pyIsSpace).reverse.dropWhile pyIsSpace).reverse

/-- Python `sub in s` substring test on `List Char`. -/
def containsSub (p : List Char) : List Char → Bool
  | [] => p.isEmpty
  | c :: rest => p.isPrefixOf (c :: rest) || containsSub p rest

/-- Python `str.lower` on a character (ASCII; other code points are fixed by
both Python and this model for the characters appearing in process names). -/
def pyLower (c : Char) : Char := c.toLower

/-- Python `str.upper` on a character (ASCII, as for `pyLower`). -/
def pyUpper (c : Char) : Char := c.toUpper

/-- Python string `<` (lexicographic by code point), used by the source to
compare ISO timestamp strings. -/
def strLtL : List Char → List Char → Bool
  | [], [] => false
  | [], _ :: _ => true
  | _ :: _, [] => false
  | a :: as, b :: bs => if a < b then true else if b < a then false else strLtL as bs

/-- Python `str.split('.')`. -/
def splitDot (l : List Char) : List (List Char) :=
  l.foldr
    (fun c acc =>
      match acc with
      | [] => if c = '.' then [[], []] else [[c]]
      | g :: gs => if c = '.' then [] :: g :: gs else (c :: g) :: gs)
    [[]]

/-- Python `str.split(':')`. -/
def splitColon (l : List Char) : List (List Char) :=
  l.foldr
    (fun c acc =>
      match acc with
      | [] => if c = ':' then [[], []] else [[c]]
      | g :: gs => if c = ':' then [] :: g :: gs else (c :: g) :: gs)
    [[]]

/-- Value of a digit run as a natural number (least significant digit last). -/
def digitsToNat (l : List Char) : Nat :=
  l.foldl (fun a c => a * 10 + (c.toNat - 48)) 0

/-- Python `int(s)` restricted to the shapes reachable here: optional
whitespace, an optional sign, then decimal digits (underscore separators do
not occur in the `HH:MM` strings this is applied to). Any other input makes
`int` raise `ValueError`, modelled as `none`. -/
def pyInt (l0 : List Char) : Option Int :=
  let l := pyStrip l0
  let sgnAndRest : Int × List Char :=
    match l with
    | '-' :: r => (-1, r)
    | '+' :: r => (1, r)
    | _ => (1, l)
  if sgnAndRest.2 ≠ [] ∧ sgnAndRest.2.all Char.isDigit then
    some (sgnAndRest.1 * (digitsToNat sgnAndRest.2 : Int))
  else none

/-! ## `bms_log_monitor.py`: log-file reading and pattern scanners -/

/-- Section `BMSLogMonitor._read_log_file` with `from_end=True, max_lines=100`
(the only call shape used by the two parsers): keep the last 100 lines.  A
missing or unreadable file yields `[]`, which is how callers pass "no file". -/
def readLast100 (fileLines : List (List Char)) : List (List Char) :=
  if fileLines.length > 100 then fileLines.drop (fileLines.length - 100) else fileLines

/-- Regex `^(\d{2}:\d{2}:\d{2})\s*:` of `BMSLogMonitor._parse_log_time`,
anchored at the start of the line; on success the source returns the ISO
string `f"{today}T{time_str}+07:00"` where `today` is today's date. -/
def parseLogTime (today : List Char) (l : List Char) : Option (List Char) :=
  match l with
  | h1 :: h2 :: ':' :: m1 :: m2 :: ':' :: s1 :: s2 :: rest =>
    if h1.isDigit ∧ h2.isDigit ∧ m1.isDigit ∧ m2.isDigit ∧ s1.isDigit ∧ s2.isDigit then
      match (rest.dropWhile pyIsSpace) with
      | ':' :: _ => some (today ++ str "T" ++ [h1, h2, ':', m1, m2, ':', s1, s2] ++ str "+07:00")
      | _ => none
    else none
  | _ => none

/-- Regex `1-{18} = \d+` (`PATTERN_HEARTBEAT`) tried at one position:
the literal `'1'`, exactly 18 dashes, `" = "`, then a digit. -/
def hbAt (l : List Char) : Bool :=
  (('1' :: List.replicate 18 '-') ++ str " = ").isPrefixOf l &&
    (match l.drop 22 with
     | c :: _ => c.isDigit
     | [] => false)

/-- `re.search(PATTERN_HEARTBEAT, line)`: leftmost-position scan of `hbAt`. -/
def hbMatch : List Char → Bool
  | [] => false
  | c :: rest => hbAt (c :: rest) || hbMatch rest

/-- Digit-run helper shared by the `\[(\d+)\]` group of `PATTERN_CREATE_THREAD`
and `PATTERN_THREAD_ERROR`: greedy `\d+` followed by a literal `']'` is the
maximal digit run, which must be nonempty and directly followed by `']'`.
Returns the digit group and the remainder after `']'`. -/
def bracketDigits : List Char → Option (List Char × List Char)
  | '[' :: r =>
    let ds := r.takeWhile Char.isDigit
    match r.drop ds.length with
    | ']' :: rest => if ds ≠ [] then some (ds, rest) else none
    | _ => none
  | _ => none

/-- Regex `Create Thread (Import|Export)\[(\d+)\]` (`PATTERN_CREATE_THREAD`)
tried at one position; returns groups 1 and 2. -/
def ctAt (l : List Char) : Option (List Char × List Char) :=
  if (str "Create Thread ").isPrefixOf l then
    let rest := l.drop 14
    let tryTy : List Char → Option (List Char × List Char) := fun ty =>
      if ty.isPrefixOf rest then
        match bracketDigits (rest.drop ty.length) with
        | some (ds, _) => some (ty, ds)
        | none => none
      else none
    (tryTy (str "Import")).orElse fun _ => tryTy (str "Export")
  else none

/-- `re.search(PATTERN_CREATE_THREAD, line)`: leftmost-position scan. -/
def ctMatch : List Char → Option (List Char × List Char)
  | [] => none
  | c :: rest => (ctAt (c :: rest)).orElse fun _ => ctMatch rest

/-- Tail `\s*=>\s*(.+)` shared by the three error patterns, with greedy
semantics: the whitespace runs are maximal, and `(.+)` takes the rest of the
line (nonempty; when everything after `=>` is whitespace, backtracking leaves
exactly the last whitespace character to `(.+)`). -/
def arrowMsg (t : List Char) : Option (List Char) :=
  match t.dropWhile pyIsSpace with
  | '=' :: '>' :: r =>
    let m := r.dropWhile pyIsSpace
    if m ≠ [] then some m
    else if r ≠ [] then some [r.getLastD ' ']
    else none
  | _ => none

/-- Regex `(Init LIS )?Connection Error\s*=>\s*(.+)` (`PATTERN_CONNECTION_ERROR`)
tried at one position; returns groups 1 (optional) and 2. -/
def connErrAt (l : List Char) : Option (Option (List Char) × List Char) :=
  if (str "Init LIS Connection Error").isPrefixOf l then
    (arrowMsg (l.drop 25)).map fun m => (some (str "Init LIS "), m)
  else if (str "Connection Error").isPrefixOf l then
    (arrowMsg (l.drop 16)).map fun m => ((none : Option (List Char)), m)
  else none

/-- `re.search(PATTERN_CONNECTION_ERROR, line)`: leftmost-position scan. -/
def connErrMatch : List Char → Option (Option (List Char) × List Char)
  | [] => none
  | c :: rest => (connErrAt (c :: rest)).orElse fun _ => connErrMatch rest

/-- Backtracking split for `([^\s]+)\s*=>\s*(.+)`: the candidate group 1 run
is shrunk from its maximal (greedy) extent until the arrow tail matches.
First argument is the reversed group-1 candidate, second the remainder. -/
def reconTry : List Char → List Char → Option (List Char × List Char)
  | [], _ => none
  | c :: rrev, rest =>
    match arrowMsg rest with
    | some m => some ((c :: rrev).reverse, m)
    | none => reconTry rrev (c :: rest)

/-- Regex `Error Reconnect\s+([^\s]+)\s*=>\s*(.+)` (`PATTERN_RECONNECT_ERROR`)
tried at one position; returns groups 1 and 2. -/
def reconAt (l : List Char) : Option (List Char × List Char) :=
  if (str "Error Reconnect").isPrefixOf l then
    let rest := l.drop 15
    let sp := rest.takeWhile pyIsSpace
    if sp = [] then none
    else
      let rest2 := rest.drop sp.length
      let r := rest2.takeWhile fun c => ¬ pyIsSpace c
      if r = [] then none else reconTry r.reverse (rest2.drop r.length)
  else none

/-- `re.search(PATTERN_RECONNECT_ERROR, line)`: leftmost-position scan. -/
def reconMatch : List Char → Option (List Char × List Char)
  | [] => none
  | c :: rest => (reconAt (c :: rest)).orElse fun _ => reconMatch rest

/-- Regex `Thread (Export|Import)\[(\d+)\]\s+(Execute\s+)?Error\s*=>\s*(.+)`
(`PATTERN_THREAD_ERROR`) tried at one position; returns groups 1, 2 and 4.
The optional `Execute\s+` group is preferred (greedy `?`), falling back to
matching `Error` directly. -/
def teAt (l : List Char) : Option (List Char × List Char × List Char) :=
  if (str "Thread ").isPrefixOf l then
    let rest := l.drop 7
    let tryTy : List Char → Option (List Char × List Char × List Char) := fun ty =>
      if ty.isPrefixOf rest then
        match bracketDigits (rest.drop ty.length) with
        | some (ds, r2) =>
          let sp := r2.takeWhile pyIsSpace
          if sp = [] then none
          else
            let r3 := r2.drop sp.length
            let tryError : List Char → Option (List Char) := fun u =>
              if (str "Error").isPrefixOf u then arrowMsg (u.drop 5) else none
            let withExec : Option (List Char) :=
              if (str "Execute").isPrefixOf r3 then
                let s2 := r3.drop 7
                let sp2 := s2.takeWhile pyIsSpace
                if sp2 = [] then none else tryError (s2.drop sp2.length)
              else none
            match withExec.orElse fun _ => tryError r3 with
            | some m => some (ty, ds, m)
            | none => none
        | none => none
      else none
    (tryTy (str "Export")).orElse fun _ => tryTy (str "Import")
  else none

/-- `re.search(PATTERN_THREAD_ERROR, line)`: leftmost-position scan. -/
def teMatch : List Char → Option (List Char × List Char × List Char)
  | [] => none
  | c :: rest => (teAt (c :: rest)).orElse fun _ => teMatch rest

/-- Regex `host\s*['\"]?([^'\":\s]+)` with `re.IGNORECASE`, tried at one
position on the extracted error message. -/
def hostAt (l : List Char) : Option (List Char) :=
  if (l.take 4).map pyLower = str "host" then
    let rest := (l.drop 4).dropWhile pyIsSpace
    let rest2 :=
      match rest with
      | c :: r => if c = '\'' ∨ c = '"' then r else rest
      | [] => rest
    let run := rest2.takeWhile fun c => ¬ (c = '\'' ∨ c = '"' ∨ c = ':' ∨ pyIsSpace c)
    if run ≠ [] then some run else none
  else none

/-- The `host ...` search of `parse_error_log`: leftmost-position scan. -/
def hostMatch : List Char → Option (List Char)
  | [] => none
  | c :: rest => (hostAt (c :: rest)).orElse fun _ => hostMatch rest

-- quick sanity examples (scanner behaviour on concrete lines)
example : parseLogTime (str "2026-10-12") (str "10:00:00 : Stop Gateway.")
    = some (str "2026-10-12T10:00:00+07:00") := by decide
example : hbMatch (str "10:00:00 : 1------------------ = 5") = true := by decide
example : hbMatch (str "10:00:00 : 1----------------- = 5") = false := by decide
example : connErrMatch (str "10:00:00 : Connection Error => boom")
    = some (none, str "boom") := by decide
example : teMatch (str "10:00:01 : Thread Export[1] Error => A")
    = some (str "Export", str "1", str "A") := by decide
example : ctMatch (str "Create Thread Import[12]") = some (str "Import", str "12") := by decide

/-! ## `bms_log_monitor.py`: `parse_system_log` -/

/-- Result dictionary of `BMSLogMonitor.parse_system_log`. -/
structure SysResult where
  gateway_status : List Char
  gateway_last_event : Option (List Char)
  gateway_last_event_time : Option (List Char)
  last_heartbeat : Option (List Char)
  active_threads : Nat
deriving DecidableEq, Repr

/-- Initial `result` dictionary of `parse_system_log`. -/
def sysInit : SysResult := ⟨str "unknown", none, none, none, 0⟩

/-- The `for line in reversed(lines)` loop of `parse_system_log`; the input
list is already reversed.  The `break` on the first `Start Gateway.` /
`Stop Gateway.` line is modelled by returning without recursing. -/
def sysScanRev (today : List Char) : List (List Char) → SysResult → SysResult
  | [], r => r
  | line0 :: rest, r =>
    let line := pyStrip line0
    if line = [] then sysScanRev today rest r
    else
      let ts := parseLogTime today line
      if containsSub (str "Start Gateway.") line then
        if r.gateway_status = str "unknown" then
          { r with gateway_status := str "running",
                   gateway_last_event := some (str "Start Gateway"),
                   gateway_last_event_time := ts }
        else r
      else if containsSub (str "Stop Gateway.") line then
        if r.gateway_status = str "unknown" then
          { r with gateway_status := str "stopped",
                   gateway_last_event := some (str "Stop Gateway"),
                   gateway_last_event_time := ts }
        else r
      else
        let r' :=
          if hbMatch line ∧ r.last_heartbeat = none then
            let r1 : SysResult := { r with last_heartbeat := ts }
            if r1.gateway_status = str "unknown" then
              { r1 with gateway_status := str "running" }
            else r1
          else r
        sysScanRev today rest r'

/-- Thread-count loop of `parse_system_log`: distinct
`f"{thread_type}_{thread_id}"` keys collected from `PATTERN_CREATE_THREAD`
matches over `lines[-50:]` (the lines are scanned unstripped, as in the
source; the Python `set` is modelled as a deduplicated list). -/
def threadIdKeys (lines : List (List Char)) : List (List Char) :=
  (lines.drop (lines.length - 50)).foldl
    (fun acc l =>
      match ctMatch l with
      | some (ty, tid) =>
        let k := ty ++ str "_" ++ tid
        if k ∈ acc then acc else acc ++ [k]
      | none => acc)
    []

/-- `BMSLogMonitor.parse_system_log`, as a function of today's date and the
content of today's `System_*.txt` file (`[]` when the file is absent or
unreadable). -/
def parse_system_log (today : List Char) (fileLines : List (List Char)) : SysResult :=
  let lines := readLast100 fileLines
  if lines = [] then sysInit
  else
    let r := sysScanRev today lines.reverse sysInit
    { r with active_threads := (threadIdKeys lines).length }

/-! ## `bms_log_monitor.py`: `parse_error_log` -/

/-- State threaded through the `parse_error_log` scan: the two connectivity
flags plus the mutable entries of the `result` dictionary. -/
structure ErrSt where
  hosxpConnected : Bool
  gatewayConnected : Bool
  hosxp_db_host : Option (List Char)
  hosxp_db_last_error : Option (List Char)
  gateway_db_host : Option (List Char)
  gateway_db_last_error : Option (List Char)
  thread_errors : List (List Char)
  last_error_time : Option (List Char)
deriving DecidableEq, Repr

/-- Initial state of the `parse_error_log` scan (`hosxp_connected = True`,
`gateway_connected = True`, empty result entries). -/
def errInit : ErrSt := ⟨true, true, none, none, none, none, [], none⟩

/-- Connection-error check of `parse_error_log` (lines 280-301).  Group 2 of
`PATTERN_CONNECTION_ERROR` is `(.+)` and hence always nonempty, so the
source's `group(2) if group(2) else group(1)` always selects group 2. -/
def errStepConn (today : List Char) (st : ErrSt) (line : List Char) : ErrSt :=
  match connErrMatch line with
  | some (_, msg) =>
    let host := hostMatch msg
    let ts := parseLogTime today line
    if containsSub (str "LIS") line ∨ containsSub (str "HOSxP") (line.map pyUpper) then
      { st with hosxpConnected := false, hosxp_db_host := host,
                hosxp_db_last_error := some (msg.take 200), last_error_time := ts }
    else
      { st with gatewayConnected := false, gateway_db_host := host,
                gateway_db_last_error := some (msg.take 200), last_error_time := ts }
  | none => st

/-- Reconnect-error check of `parse_error_log` (lines 304-324). -/
def errStepRecon (today : List Char) (st : ErrSt) (line : List Char) : ErrSt :=
  match reconMatch line with
  | some (dbInfo, msg) =>
    let parts := splitDot dbInfo
    let host := if parts.length ≥ 4 then List.intercalate (str ".") (parts.take 4)
                else parts.headD []
    let ts := parseLogTime today line
    if containsSub (str "gateway") (dbInfo.map pyLower) then
      { st with hosxpConnected := false, hosxp_db_host := some host,
                hosxp_db_last_error := some (msg.take 200), last_error_time := ts }
    else
      { st with gatewayConnected := false, gateway_db_host := some host,
                gateway_db_last_error := some (msg.take 200), last_error_time := ts }
  | none => st

/-- Reconnect-OK check of `parse_error_log` (lines 327-331). -/
def errStepOk (st : ErrSt) (line : List Char) : ErrSt :=
  if containsSub (str "ReConnect DB OK.") line then
    { st with hosxpConnected := true, gatewayConnected := true,
              hosxp_db_last_error := none, gateway_db_last_error := none }
  else st

/-- Thread-error check of `parse_error_log` (lines 334-344): append the
formatted `f"{thread_type}[{thread_id}]: {error_msg[:100]}"` entry if absent,
then keep only the last five entries. -/
def errStepThread (st : ErrSt) (line : List Char) : ErrSt :=
  match teMatch line with
  | some (ty, tid, msg) =>
    let info := ty ++ str "[" ++ tid ++ str "]: " ++ msg.take 100
    if info ∈ st.thread_errors then st
    else
      let te := st.thread_errors ++ [info]
      { st with thread_errors := if te.length > 5 then te.drop (te.length - 5) else te }
  | none => st

/-- One iteration of the `for line in lines` loop of `parse_error_log`:
strip, skip blank lines, then the four checks in source order.  (The source
computes the line timestamp once before the checks; `errStepConn` and
`errStepRecon` recompute the same pure value.) -/
def errStep (today : List Char) (st : ErrSt) (line0 : List Char) : ErrSt :=
  let line := pyStrip line0
  if line = [] then st
  else errStepThread (errStepOk (errStepRecon today (errStepConn today st line) line) line) line

/-- Result dictionary of `BMSLogMonitor.parse_error_log`. -/
structure ErrorLogResult where
  hosxp_db_status : List Char
  hosxp_db_host : Option (List Char)
  hosxp_db_last_error : Option (List Char)
  gateway_db_status : List Char
  gateway_db_host : Option (List Char)
  gateway_db_last_error : Option (List Char)
  thread_errors : List (List Char)
  last_error_time : Option (List Char)
deriving DecidableEq, Repr

/-- `BMSLogMonitor.parse_error_log`, as a function of today's date and the
content of today's `Error_*.txt` file (`[]` when the file is absent or
unreadable, in which case both databases are assumed connected). -/
def parse_error_log (today : List Char) (fileLines : List (List Char)) : ErrorLogResult :=
  let lines := readLast100 fileLines
  if lines = [] then
    ⟨str "connected", none, none, str "connected", none, none, [], none⟩
  else
    let st := lines.foldl (errStep today) errInit
    ⟨(if st.hosxpConnected then str "connected" else str "disconnected"),
     st.hosxp_db_host, st.hosxp_db_last_error,
     (if st.gatewayConnected then str "connected" else str "disconnected"),
     st.gateway_db_host, st.gateway_db_last_error,
     st.thread_errors, st.last_error_time⟩

/-! ## `bms_log_monitor.py`: `check_heartbeat_timeout` and `get_status` -/

/-- Parser for the ISO strings produced by `_parse_log_time`
(`YYYY-MM-DDTHH:MM:SS+07:00`); returns the second-of-day.  This embeds
`datetime.fromisoformat` restricted to the only string shape reachable from
`get_status` (the monitor reads only today's log files, and every timestamp
it builds carries the fixed `+07:00` offset, so comparisons reduce to the
second-of-day).  The source's `.replace('Z', '+00:00')` is the identity on
these strings.  A string of any other shape makes `fromisoformat` raise,
which `check_heartbeat_timeout` turns into `True` (stale). -/
def isoSecondOfDay (s : List Char) : Option Int :=
  match s with
  | [y1, y2, y3, y4, '-', mo1, mo2, '-', d1, d2, 'T',
     h1, h2, ':', mi1, mi2, ':', s1, s2, '+', '0', '7', ':', '0', '0'] =>
    if y1.isDigit ∧ y2.isDigit ∧ y3.isDigit ∧ y4.isDigit ∧ mo1.isDigit ∧ mo2.isDigit ∧
       d1.isDigit ∧ d2.isDigit ∧ h1.isDigit ∧ h2.isDigit ∧ mi1.isDigit ∧ mi2.isDigit ∧
       s1.isDigit ∧ s2.isDigit then
      some ((3600 * digitsToNat [h1, h2] + 60 * digitsToNat [mi1, mi2]
              + digitsToNat [s1, s2] : Nat) : Int)
    else none
  | _ => none

/-- `BMSLogMonitor.check_heartbeat_timeout` with the default 30-second
timeout; `nowSec` is the current second-of-day in the Thai timezone. -/
def check_heartbeat_timeout (nowSec : Int) (lastHeartbeat : Option (List Char)) : Bool :=
  match lastHeartbeat with
  | none => true
  | some s =>
    match isoSecondOfDay s with
    | some hb => nowSec - hb > 30
    | none => true

/-- The `BMSGatewayStatus` dataclass fields computed by `get_status`
(`process_name`, `log_path` and `last_check` are configuration / clock
echoes not involved in any behaviour below and are omitted). -/
structure GatewayStatus where
  gateway_status : List Char
  gateway_last_event : Option (List Char)
  gateway_last_event_time : Option (List Char)
  last_heartbeat : Option (List Char)
  heartbeat_stale : Bool
  hosxp_db_status : List Char
  hosxp_db_host : Option (List Char)
  hosxp_db_last_error : Option (List Char)
  gateway_db_status : List Char
  gateway_db_host : Option (List Char)
  gateway_db_last_error : Option (List Char)
  active_threads : Nat
  thread_errors : List (List Char)
  last_error_time : Option (List Char)
deriving DecidableEq, Repr

/-- Restart-after-error override of `get_status` (lines 387-405): when the
gateway is `running`, the last event equals the string `'start'`, and both
timestamps are present, the two timestamps are re-parsed with
`_parse_log_time` and compared as Python strings; on success both DB statuses
are forced to `connected` and the error texts cleared. -/
def applyRestartOverride (today : List Char) (si : SysResult) (ei : ErrorLogResult) :
    ErrorLogResult :=
  match ei.last_error_time, si.gateway_last_event_time with
  | some errS, some startS =>
    if si.gateway_status = str "running" ∧ si.gateway_last_event = some (str "start") then
      match parseLogTime today errS, parseLogTime today startS with
      | some errT, some startT =>
        if strLtL errT startT then
          { ei with hosxp_db_status := str "connected",
                    gateway_db_status := str "connected",
                    hosxp_db_last_error := none,
                    gateway_db_last_error := none }
        else ei
      | _, _ => ei
    else ei
  | _, _ => ei

/-- `BMSLogMonitor.get_status`, as a function of today's date, the current
second-of-day, and the contents of the two log files. -/
def get_status (today : List Char) (nowSec : Int)
    (sysLines errLines : List (List Char)) : GatewayStatus :=
  let si := parse_system_log today sysLines
  let ei := parse_error_log today errLines
  let ei := applyRestartOverride today si ei
  let heartbeatStale := check_heartbeat_timeout nowSec si.last_heartbeat
  let gs := if si.gateway_status = str "running" ∧ heartbeatStale then str "unknown"
            else si.gateway_status
  ⟨gs, si.gateway_last_event, si.gateway_last_event_time, si.last_heartbeat,
   heartbeatStale, ei.hosxp_db_status, ei.hosxp_db_host, ei.hosxp_db_last_error,
   ei.gateway_db_status, ei.gateway_db_host, ei.gateway_db_last_error,
   si.active_threads, ei.thread_errors, ei.last_error_time⟩

/-- `bms_log_monitor.is_bms_process`: substring heuristics on the lowered
process name, then on the uppered window title. -/
def is_bms_process (processName : List Char) (windowTitle : Option (List Char)) : Bool :=
  let nl := processName.map pyLower
  if containsSub (str "bms") nl || containsSub (str "hosxp") nl ||
     containsSub (str "lis") nl || containsSub (str "gateway") nl ||
     containsSub (str "hl7") nl then true
  else
    match windowTitle with
    | some t =>
      let tu := t.map pyUpper
      containsSub (str "BMS") tu || containsSub (str "HOSXP") tu
    | none => false

-- sanity examples for the parsers
example : (parse_system_log (str "2026-10-12") [str "10:00:00 : Stop Gateway."]).gateway_status
    = str "stopped" := by decide
example : (parse_error_log (str "2026-10-12") [str "10:00:00 : Connection Error => boom"]
    ).gateway_db_status = str "disconnected" := by decide
example : (parse_error_log (str "2026-10-12")
    [str "10:00:00 : Connection Error => boom", str "10:05:00 : ReConnect DB OK."]
    ).gateway_db_status = str "connected" := by decide
example : is_bms_process (str "BMSHOSxPLISServices") none = true := by decide
example : is_bms_process (str "notepad.exe") none = false := by decide

/-! ## `process_monitor.py`: stopped-alert state machine -/

/-- The alert-setting entries consulted by `_create_process_stopped_alert`
(`process_stopped_alert_enabled`, `process_stopped_minutes`,
`process_stopped_seconds`; the keys exist from `__init__` on, so the `.get`
fallbacks never apply). -/
structure AlertCfg where
  enabled : Bool
  minutes : Int
  seconds : Int
deriving DecidableEq, Repr

/-- Wait duration `(wait_minutes * 60) + wait_seconds` in seconds. -/
def waitDuration (c : AlertCfg) : Int := c.minutes * 60 + c.seconds

/-- `process_stopped_alert_enabled/minutes/seconds` defaults set in
`ProcessMonitor.__init__`. -/
def initAlertCfg : AlertCfg := ⟨true, 0, 0⟩

/-- Camel-case alert-settings payload fields consumed by
`ProcessMonitor.update_alert_settings` (those relevant to stop alerts);
`none` models an absent key. -/
structure AlertSettingsUpdate where
  processStoppedAlertEnabled : Option Bool
  processStoppedMinutes : Option Int
  processStoppedSeconds : Option Int
deriving DecidableEq, Repr

/-- `ProcessMonitor.update_alert_settings` restricted to the stop-alert keys:
each present key overwrites the stored setting. -/
def update_alert_settings (c : AlertCfg) (u : AlertSettingsUpdate) : AlertCfg :=
  ⟨u.processStoppedAlertEnabled.getD c.enabled,
   u.processStoppedMinutes.getD c.minutes,
   u.processStoppedSeconds.getD c.seconds⟩

/-- Defaults returned by `main._load_alert_settings` when no settings file
exists; applied to the monitor at startup via `update_alert_settings`. -/
def defaultAlertSettingsPayload : AlertSettingsUpdate := ⟨some true, some 5, some 0⟩

/-- Per-process stop-tracking state: `process_stopped_time[name]`
(`None` models a missing key) and `process_stopped_alerted[name]`
(a missing key is read as `False` via `.get(..., False)`). -/
structure StopState where
  stoppedTime : Option Int
  alerted : Bool
deriving DecidableEq, Repr

/-- State before a process was ever seen stopped: neither dictionary has an
entry for the process. -/
def stopInit : StopState := ⟨none, false⟩

/-- `ProcessMonitor._create_process_stopped_alert` called at wall-clock
second `t` while the process is unacquirable: returns the updated state and
whether a `PROCESS_STOPPED` alert was appended.  Mirrors the source order:
enabled check, already-alerted check, first-observation recording (no alert),
duration gate, then alert + `process_stopped_alerted[name] = True`. -/
def stoppedAlertStep (c : AlertCfg) (t : Int) (st : StopState) : StopState × Bool :=
  if c.enabled = false then (st, false)
  else if st.alerted then (st, false)
  else
    match st.stoppedTime with
    | none => ({ st with stoppedTime := some t }, false)
    | some t0 =>
      if t - t0 < waitDuration c then (st, false)
      else ({ st with alerted := true }, true)

/-- Fold of `stoppedAlertStep` over the tick instants of one continuous
down-period, counting emitted `PROCESS_STOPPED` alerts. -/
def runStopped (c : AlertCfg) : List Int → StopState → StopState × Nat
  | [], st => (st, 0)
  | t :: ts, st =>
    let p := stoppedAlertStep c t st
    let q := runStopped c ts p.1
    (q.1, (if p.2 then 1 else 0) + q.2)

/-- `ProcessMonitor._create_process_started_alert`'s effect on the
stop-tracking state: both the stopped-time and the alerted entries for the
process are deleted, restoring the initial state. -/
def startedAlertReset (_ : StopState) : StopState := stopInit

/-! ## `process_monitor.py`: disk I/O rate block of `get_process_info` -/

/-- Raw cumulative byte counters returned by `proc.io_counters()`. -/
structure IoCounters where
  read_bytes : Int
  write_bytes : Int
deriving DecidableEq, Repr

/-- The `prev_metrics[pid]` entry holding the previous `io_counters` and the
timestamp at which they were stored. -/
structure PrevIoSample where
  counters : IoCounters
  time : Int
deriving DecidableEq, Repr

/-- Disk I/O block of `ProcessMonitor.get_process_info` (lines 366-386):
rates are 0 when no previous entry exists for the pid (or when no wall time
elapsed), otherwise `(Δbytes) / (1024*1024) / Δt`; the current counters and
time are stored for the next call.  (The source calls `time.time()` twice a
few microseconds apart; the model uses the single instant `now`.) -/
def diskIoRates (prev : Option PrevIoSample) (cur : IoCounters) (now : Int) :
    (ℚ × ℚ) × PrevIoSample :=
  match prev with
  | none => ((0, 0), ⟨cur, now⟩)
  | some p =>
    let dt := now - p.time
    if 0 < dt then
      ((((cur.read_bytes - p.counters.read_bytes : Int) : ℚ) / (1024 * 1024) / ((dt : Int) : ℚ),
        ((cur.write_bytes - p.counters.write_bytes : Int) : ℚ) / (1024 * 1024) / ((dt : Int) : ℚ)),
       ⟨cur, now⟩)
    else ((0, 0), ⟨cur, now⟩)

/-! ## `process_monitor.py`: alert buffer and `get_recent_alerts` -/

/-- Python slice `xs[-limit:]` for a nonnegative `limit` (the shape used by
`get_recent_alerts`): for `limit = 0` the slice is `xs[0:]`, the whole list;
otherwise the last `limit` elements. -/
def pySliceLast {α : Type} (l : List α) (limit : Nat) : List α :=
  if limit = 0 then l else l.drop (l.length - limit)

/-- `ProcessMonitor.get_recent_alerts`: `list(self.alerts)[-limit:]`, where
the deque holds alerts oldest first. -/
def get_recent_alerts {α : Type} (alerts : List α) (limit : Nat) : List α :=
  pySliceLast alerts limit

/-- Append to the `deque(maxlen=100)` alert buffer: the oldest entry is
evicted once the buffer is full. -/
def alertsAppend {α : Type} (l : List α) (a : α) : List α :=
  let l2 := l ++ [a]
  if l2.length > 100 then l2.drop (l2.length - 100) else l2

/-! ## `restart_scheduler.py`: schedules and the tick -/

/-- One entry of `RestartScheduler.schedules` (the fields read by the tick;
`hostname` is only part of the key).  `next_restart`/`last_restart` store the
parsed value of the persisted ISO string (`datetime.fromisoformat` is the
inverse of `isoformat` on these strings). -/
structure Schedule where
  process_name : List Char
  program_path : Option (List Char)
  sched_type : List Char
  intervalMinutes : Option Int
  intervalSeconds : Option Int
  dailyTime : Option (List Char)
  enabled : Bool
  last_restart : Option Int
  next_restart : Option Int
deriving DecidableEq, Repr

/-- Midnight of the local day containing instant `now` (seconds since the
epoch in the Thai timezone): models `now.replace(hour=h, minute=m, second=0,
microsecond=0)` as `dayStart now + 3600*h + 60*m`. -/
def dayStart (now : Int) : Int := 86400 * (now / 86400)

/-- `RestartScheduler._calculate_next_restart` (the identical
`_calculate_next_check` is not separately modelled).  `interval`: `now +
minutes*60 + seconds` when positive, else `None`; `daily`: next occurrence of
`HH:MM` (tomorrow if not strictly in the future), `None` when the time string
is missing, empty, malformed, or `replace` would raise (hour/minute out of
range). -/
def calculate_next_restart (s : Schedule) (now : Int) : Option Int :=
  if s.sched_type = str "interval" then
    let total := s.intervalMinutes.getD 0 * 60 + s.intervalSeconds.getD 0
    if total > 0 then some (now + total) else none
  else if s.sched_type = str "daily" then
    match s.dailyTime with
    | none => none
    | some dt =>
      if dt = [] then none
      else
        match (splitColon dt).map pyInt with
        | [some h, some m] =>
          if 0 ≤ h ∧ h ≤ 23 ∧ 0 ≤ m ∧ m ≤ 59 then
            let nt := dayStart now + 3600 * h + 60 * m
            some (if nt ≤ now then nt + 86400 else nt)
          else none
        | _ => none
  else none

/-- Outcome of one schedule's handling inside
`RestartScheduler._check_schedules`. -/
inductive TickOutcome where
  | skippedDisabled
  | skippedNoNext
  | notDue
  | attrError
  | postponedBusy
  | acted (success : Bool)
deriving DecidableEq, Repr

/-- External facts consulted by `_restart_process`: whether some OS process
currently matches the name (so the kill loop kills something) and whether the
configured program path exists on disk. -/
structure RestartEnv where
  processRunning : Bool
  pathExists : Bool
deriving DecidableEq, Repr

/-- Return value of `RestartScheduler._restart_process`: `True` when the
executable was spawned (path set and existing), else whether at least one
process was killed. -/
def restartProcessSuccess (env : RestartEnv) (path : Option (List Char)) : Bool :=
  match path with
  | some _ => if env.pathExists then true else env.processRunning
  | none => env.processRunning

/-- Python attribute lookup `bms_monitor.is_any_thread_working` performed by
`_check_schedules` line 271: class `BMSLogMonitor` (bms_log_monitor.py)
defines no attribute of this name and no `__getattr__`, so the lookup raises
`AttributeError`; `none` models the failing lookup (a `some b` would model a
method returning `b`). -/
def bmsBusyLookup : Option Bool := none

/-- Handling of a single enabled-or-not schedule inside
`RestartScheduler._check_schedules`: the `continue` paths leave the schedule
untouched; an exception inside the `try` (in particular the `AttributeError`
from the missing `is_any_thread_working`) is caught by the per-schedule
handler, also leaving the schedule untouched; otherwise `_restart_process`
runs and `last_restart`/`next_restart` are advanced whether or not it
succeeded. -/
def checkScheduleStep (now : Int) (env : RestartEnv) (s : Schedule) :
    Schedule × TickOutcome :=
  if s.enabled = false then (s, .skippedDisabled)
  else
    match s.next_restart with
    | none => (s, .skippedNoNext)
    | some nrt =>
      if now < nrt then (s, .notDue)
      else if is_bms_process s.process_name none then
        match bmsBusyLookup with
        | none => (s, .attrError)
        | some busy =>
          if busy then (s, .postponedBusy)
          else
            let success := restartProcessSuccess env s.program_path
            ({ s with last_restart := some now,
                      next_restart := calculate_next_restart s now }, .acted success)
      else
        let success := restartProcessSuccess env s.program_path
        ({ s with last_restart := some now,
                  next_restart := calculate_next_restart s now }, .acted success)

/-! ## Claim C1: BMS restart path of the scheduler tick -/

/-- C1: the claim states that a due restart schedule for a BMS-type process
restarts the process (kill, spawn, re-register, advance `next_restart`) when
the log-derived active thread count is zero, and skips without advancing when
it is positive.  In the code, the tick instead always raises `AttributeError`
(`BMSLogMonitor` has no `is_any_thread_working`), caught by the per-schedule
handler: for every due, enabled, BMS-named schedule the tick leaves the
schedule untouched and performs no kill/spawn, regardless of the thread
count. -/
theorem C1_bms_restart_always_attr_error (now : Int) (env : RestartEnv) (s : Schedule)
    (nrt : Int) (hen : s.enabled = true) (hnr : s.next_restart = some nrt)
    (hdue : nrt ≤ now) (hbms : is_bms_process s.process_name none = true) :
    checkScheduleStep now env s = (s, TickOutcome.attrError) := by
  unfold checkScheduleStep
  rw [hen, hnr]
  simp only [Bool.true_eq_false, if_false]
  rw [if_neg (by omega), if_pos hbms]
  rfl

/-- Witness for C1: a concrete due, enabled schedule for the BMS process
name `BMSHOSxPLISServices`. -/
theorem C1_witness :
    ((⟨str "BMSHOSxPLISServices", some (str "C:/g.exe"), str "interval",
       some 1, some 0, none, true, none, some 3⟩ : Schedule).enabled = true ∧
     (3 : Int) ≤ 5 ∧
     is_bms_process (str "BMSHOSxPLISServices") none = true) ∧
    checkScheduleStep 5 ⟨true, true⟩
      ⟨str "BMSHOSxPLISServices", some (str "C:/g.exe"), str "interval",
       some 1, some 0, none, true, none, some 3⟩
    = (⟨str "BMSHOSxPLISServices", some (str "C:/g.exe"), str "interval",
        some 1, some 0, none, true, none, some 3⟩, TickOutcome.attrError) :=
  ⟨⟨rfl, by decide, by decide⟩,
   C1_bms_restart_always_attr_error 5 ⟨true, true⟩ _ 3 rfl rfl (by decide) (by decide)⟩

/-! ## Claim C7: zero-interval schedules never trigger -/

/-- C7: an `interval` schedule whose minutes and seconds are both zero gets
`next_restart = None` (`total_seconds > 0` fails), and every tick leaves a
schedule with unset `next_restart` untouched (skips it). -/
theorem C7_zero_interval_never_triggers :
    (∀ (s : Schedule) (now : Int), s.sched_type = str "interval" →
      s.intervalMinutes.getD 0 = 0 → s.intervalSeconds.getD 0 = 0 →
      calculate_next_restart s now = none) ∧
    (∀ (now : Int) (env : RestartEnv) (s : Schedule), s.next_restart = none →
      (checkScheduleStep now env s).1 = s ∧
      ((checkScheduleStep now env s).2 = TickOutcome.skippedDisabled ∨
       (checkScheduleStep now env s).2 = TickOutcome.skippedNoNext)) := by
  constructor
  · intro s now hty hm hs
    unfold calculate_next_restart
    rw [if_pos hty, hm, hs]
    norm_num
  · intro now env s hnr
    unfold checkScheduleStep
    rw [hnr]
    by_cases he : s.enabled = false
    · rw [if_pos he]; exact ⟨rfl, Or.inl rfl⟩
    · rw [if_neg he]; exact ⟨rfl, Or.inr rfl⟩

/-- Witness for C7: the zero-interval schedule entry produced by
`update_schedule` (enabled, `next_restart = None`) is skipped by a tick. -/
theorem C7_witness :
    calculate_next_restart
      ⟨str "p.exe", none, str "interval", some 0, some 0, none, true, none, none⟩ 1000
      = none ∧
    (checkScheduleStep 1000 ⟨true, true⟩
      ⟨str "p.exe", none, str "interval", some 0, some 0, none, true, none, none⟩).1
      = ⟨str "p.exe", none, str "interval", some 0, some 0, none, true, none, none⟩ :=
  ⟨C7_zero_interval_never_triggers.1 _ 1000 rfl rfl rfl,
   (C7_zero_interval_never_triggers.2 1000 ⟨true, true⟩ _ rfl).1⟩

/-! ## Claim C8: disk I/O rates -/

/-- C8: the disk read/write rates are 0 on the first sample for a pid, the
current raw counters and timestamp are persisted, and on the next sample each
rate equals the raw byte-counter delta divided by the elapsed wall time
(expressed in MB/s, i.e. additionally divided by 1048576 bytes/MB). -/
theorem C8_disk_rates (c1 c2 : IoCounters) (t1 t2 : Int) (h : 0 < t2 - t1) :
    (diskIoRates none c1 t1).1 = (0, 0) ∧
    (diskIoRates none c1 t1).2 = ⟨c1, t1⟩ ∧
    (diskIoRates (some ⟨c1, t1⟩) c2 t2).1.1
      = ((c2.read_bytes - c1.read_bytes : Int) : ℚ) / (1048576 * ((t2 - t1 : Int) : ℚ)) ∧
    (diskIoRates (some ⟨c1, t1⟩) c2 t2).1.2
      = ((c2.write_bytes - c1.write_bytes : Int) : ℚ) / (1048576 * ((t2 - t1 : Int) : ℚ)) := by
  refine ⟨rfl, rfl, ?_, ?_⟩ <;>
    · simp only [diskIoRates, if_pos h]
      rw [div_div]
      norm_num

/-- Witness for C8: concrete two-sample run (Δread = 1048576 bytes over 2
seconds). -/
theorem C8_witness :
    (0 : Int) < 2 - 0 ∧
    ((diskIoRates none ⟨0, 0⟩ 0).1 = (0, 0) ∧
     (diskIoRates none ⟨0, 0⟩ 0).2 = ⟨⟨0, 0⟩, 0⟩ ∧
     (diskIoRates (some ⟨⟨0, 0⟩, 0⟩) ⟨1048576, 0⟩ 2).1.1
       = (((1048576 : Int) - 0 : Int) : ℚ) / (1048576 * (((2 : Int) - 0 : Int) : ℚ)) ∧
     (diskIoRates (some ⟨⟨0, 0⟩, 0⟩) ⟨1048576, 0⟩ 2).1.2
       = (((0 : Int) - 0 : Int) : ℚ) / (1048576 * (((2 : Int) - 0 : Int) : ℚ))) :=
  ⟨by decide, C8_disk_rates ⟨0, 0⟩ ⟨1048576, 0⟩ 0 2 (by decide)⟩

/-! ## Claim C10: `get_recent_alerts` -/

/-- C10: for `limit ≥ 1` the call returns the most recent
`min(limit, count)` alerts as the order-preserving suffix of the
oldest-to-newest buffer; for `limit = 0` the slice `[-0:]` is the whole
buffer (not the empty list); and appends keep the buffer within its
100-entry capacity. -/
theorem C10_get_recent_alerts {α : Type} (alerts : List α) (limit : Nat) :
    (1 ≤ limit →
      get_recent_alerts alerts limit = alerts.drop (alerts.length - limit) ∧
      (get_recent_alerts alerts limit).length = min limit alerts.length) ∧
    (limit = 0 → get_recent_alerts alerts limit = alerts) ∧
    (∀ a, alerts.length ≤ 100 → (alertsAppend alerts a).length ≤ 100) := by
  refine ⟨?_, ?_, ?_⟩
  · intro h1
    have hz : ¬ limit = 0 := by omega
    unfold get_recent_alerts pySliceLast
    rw [if_neg hz]
    exact ⟨rfl, by rw [List.length_drop]; omega⟩
  · intro h0
    unfold get_recent_alerts pySliceLast
    rw [if_pos h0]
  · intro a hle
    unfold alertsAppend
    by_cases hgt : (alerts ++ [a]).length > 100
    · rw [if_pos hgt, List.length_drop]; omega
    · rw [if_neg hgt]; omega

/-- Witness for C10: a three-element buffer with `limit = 2` and
`limit = 0`. -/
theorem C10_witness :
    ((1 ≤ 2 ∧ get_recent_alerts [10, 20, 30] 2 = ([10, 20, 30] : List Nat).drop 1 ∧
      (get_recent_alerts [10, 20, 30] 2).length = min 2 3) ∧
     ((0 : Nat) = 0 ∧ get_recent_alerts ([10, 20, 30] : List Nat) 0 = [10, 20, 30])) :=
  ⟨⟨by decide, (C10_get_recent_alerts [10, 20, 30] 2).1 (by decide)⟩,
   ⟨rfl, (C10_get_recent_alerts [10, 20, 30] 0).2.1 rfl⟩⟩

/-! ## Claim C4: one duration-gated `PROCESS_STOPPED` alert per down-period -/

/-- Unfolding equation for `runStopped` on a nonempty tick list. -/
theorem runStopped_cons (c : AlertCfg) (t : Int) (ts : List Int) (st : StopState) :
    runStopped c (t :: ts) st =
      ((runStopped c ts (stoppedAlertStep c t st).1).1,
       (if (stoppedAlertStep c t st).2 then 1 else 0)
         + (runStopped c ts (stoppedAlertStep c t st).1).2) := rfl

/-- Step equation: alert disabled. -/
theorem stoppedStep_disabled (c : AlertCfg) (t : Int) (st : StopState)
    (h : c.enabled = false) : stoppedAlertStep c t st = (st, false) := by
  simp [stoppedAlertStep, h]

/-- Step equation: already alerted. -/
theorem stoppedStep_alerted (c : AlertCfg) (t : Int) (st : StopState)
    (hen : c.enabled = true) (ha : st.alerted = true) :
    stoppedAlertStep c t st = (st, false) := by
  simp [stoppedAlertStep, hen, ha]

/-- Step equation: first observation of the stop records the time, no alert. -/
theorem stoppedStep_record (c : AlertCfg) (t : Int) (st : StopState)
    (hen : c.enabled = true) (ha : st.alerted = false) (hn : st.stoppedTime = none) :
    stoppedAlertStep c t st = ({ st with stoppedTime := some t }, false) := by
  simp [stoppedAlertStep, hen, ha, hn]

/-- Step equation: duration not yet elapsed, no alert. -/
theorem stoppedStep_wait (c : AlertCfg) (t : Int) (st : StopState) (t0 : Int)
    (hen : c.enabled = true) (ha : st.alerted = false) (hs : st.stoppedTime = some t0)
    (hw : t - t0 < waitDuration c) : stoppedAlertStep c t st = (st, false) := by
  simp [stoppedAlertStep, hen, ha, hs, hw]

/-- Step equation: duration elapsed, the alert fires and the flag is set. -/
theorem stoppedStep_fire (c : AlertCfg) (t : Int) (st : StopState) (t0 : Int)
    (hen : c.enabled = true) (ha : st.alerted = false) (hs : st.stoppedTime = some t0)
    (hw : ¬ t - t0 < waitDuration c) :
    stoppedAlertStep c t st = ({ st with alerted := true }, true) := by
  simp [stoppedAlertStep, hen, ha, hs, hw]

/-- Helper: once the alerted flag is set, the run is a no-op. -/
theorem runStopped_alerted (c : AlertCfg) (ts : List Int) (st : StopState)
    (h : st.alerted = true) : runStopped c ts st = (st, 0) := by
  induction ts with
  | nil => rfl
  | cons t ts ih =>
    rw [runStopped_cons]
    cases hen : c.enabled with
    | false => rw [stoppedStep_disabled c t st hen]; simp [ih]
    | true => rw [stoppedStep_alerted c t st hen h]; simp [ih]

/-- Helper: a run never emits more than one alert. -/
theorem runStopped_le_one (c : AlertCfg) (ts : List Int) (st : StopState) :
    (runStopped c ts st).2 ≤ 1 := by
  induction ts generalizing st with
  | nil => simp [runStopped]
  | cons t ts ih =>
    rw [runStopped_cons]
    cases hen : c.enabled with
    | false => rw [stoppedStep_disabled c t st hen]; simpa using ih st
    | true =>
      cases ha : st.alerted with
      | true => rw [stoppedStep_alerted c t st hen ha]; simpa using ih st
      | false =>
        cases hs : st.stoppedTime with
        | none => rw [stoppedStep_record c t st hen ha hs]; simpa using ih _
        | some t0 =>
          by_cases hw : t - t0 < waitDuration c
          · rw [stoppedStep_wait c t st t0 hen ha hs hw]; simpa using ih st
          · rw [stoppedStep_fire c t st t0 hen ha hs hw,
              runStopped_alerted c ts _ rfl]
            simp

/-- Helper: a run is a no-op while the alert is disabled. -/
theorem runStopped_disabled (c : AlertCfg) (ts : List Int) (st : StopState)
    (h : c.enabled = false) : runStopped c ts st = (st, 0) := by
  induction ts with
  | nil => rfl
  | cons t ts ih =>
    rw [runStopped_cons, stoppedStep_disabled c t st h]
    simp [ih]

/-- Helper (gating): if a run from a recorded-stop, not-yet-alerted state
emits, some tick in it is at least `waitDuration` after the recorded stop
time. -/
theorem runStopped_emit_wait (c : AlertCfg) (ts : List Int) (st : StopState) (t0 : Int)
    (hst : st.stoppedTime = some t0) (hal : st.alerted = false)
    (h : (runStopped c ts st).2 = 1) :
    ∃ t ∈ ts, waitDuration c ≤ t - t0 := by
  induction ts generalizing st with
  | nil => simp [runStopped] at h
  | cons t ts ih =>
    rw [runStopped_cons] at h
    cases hen : c.enabled with
    | false =>
      rw [stoppedStep_disabled c t st hen] at h
      simp only [Bool.false_eq_true, if_false, Nat.zero_add] at h
      obtain ⟨t', ht', hw⟩ := ih st hst hal h
      exact ⟨t', List.mem_cons_of_mem t ht', hw⟩
    | true =>
      cases hs : st.stoppedTime with
      | none => rw [hst] at hs; cases hs
      | some t0' =>
        rw [hst] at hs
        cases hs
        by_cases hw : t - t0 < waitDuration c
        · rw [stoppedStep_wait c t st t0 hen hal hst hw] at h
          simp only [Bool.false_eq_true, if_false, Nat.zero_add] at h
          obtain ⟨t', ht', hw'⟩ := ih st hst hal h
          exact ⟨t', List.mem_cons_of_mem t ht', hw'⟩
        · exact ⟨t, List.mem_cons_self t ts, by omega⟩

/-- Helper (liveness): from a recorded-stop, not-yet-alerted state, a run
containing a tick past the wait emits exactly one alert. -/
theorem runStopped_fires (c : AlertCfg) (ts : List Int) (t0 : Int)
    (hen : c.enabled = true) (h : ∃ t ∈ ts, waitDuration c ≤ t - t0) :
    (runStopped c ts ⟨some t0, false⟩).2 = 1 := by
  induction ts with
  | nil => simp at h
  | cons t ts ih =>
    rw [runStopped_cons]
    by_cases hw : t - t0 < waitDuration c
    · rw [stoppedStep_wait c t ⟨some t0, false⟩ t0 hen rfl rfl hw]
      simp only [Bool.false_eq_true, if_false, Nat.zero_add]
      apply ih
      obtain ⟨t', ht', hw'⟩ := h
      rcases List.mem_cons.mp ht' with hteq | htl
      · subst hteq; omega
      · exact ⟨t', htl, hw'⟩
    · rw [stoppedStep_fire c t ⟨some t0, false⟩ t0 hen rfl rfl hw,
        runStopped_alerted c ts _ rfl]
      simp

/-- C4: over the ticks of one continuous down-period (first observation at
`t0`, later ticks `rest`), the code emits at most one `PROCESS_STOPPED`
alert; an alert is emitted only when some tick lies at least the configured
wait duration after the first observation; with the alert enabled such a tick
makes it fire exactly once; a `PROCESS_STARTED` recovery resets the tracking
state so a new down-period starts fresh; and the startup-default settings
(`main._load_alert_settings` applied through `update_alert_settings`) give
the default 5-minute (300 s) wait. -/
theorem C4_stopped_alert_once_gated (c : AlertCfg) (t0 : Int) (rest : List Int) :
    ((runStopped c (t0 :: rest) stopInit).2 ≤ 1) ∧
    ((runStopped c (t0 :: rest) stopInit).2 = 1 →
      ∃ t ∈ rest, waitDuration c ≤ t - t0) ∧
    (c.enabled = true → (∃ t ∈ rest, waitDuration c ≤ t - t0) →
      (runStopped c (t0 :: rest) stopInit).2 = 1) ∧
    (∀ st, startedAlertReset st = stopInit) ∧
    waitDuration (update_alert_settings initAlertCfg defaultAlertSettingsPayload) = 300 := by
  refine ⟨runStopped_le_one c _ stopInit, ?_, ?_, fun _ => rfl, rfl⟩
  · intro h
    cases hen : c.enabled with
    | false =>
      rw [runStopped_disabled c _ stopInit hen] at h
      simp at h
    | true =>
      rw [runStopped_cons, stoppedStep_record c t0 stopInit hen rfl rfl] at h
      simp only [Bool.false_eq_true, if_false, Nat.zero_add] at h
      exact runStopped_emit_wait c rest _ t0 rfl rfl h
  · intro hen hex
    rw [runStopped_cons, stoppedStep_record c t0 stopInit hen rfl rfl]
    simp only [Bool.false_eq_true, if_false, Nat.zero_add]
    exact runStopped_fires c rest t0 hen hex

/-- Witness for C4: with the startup-default 300 s wait, ticks at 100 s,
300 s and 310 s after the first observation yield exactly one alert. -/
theorem C4_witness :
    ((update_alert_settings initAlertCfg defaultAlertSettingsPayload).enabled = true ∧
     (∃ t ∈ ([100, 300, 310] : List Int),
        waitDuration (update_alert_settings initAlertCfg defaultAlertSettingsPayload) ≤ t - 0)) ∧
    (runStopped (update_alert_settings initAlertCfg defaultAlertSettingsPayload)
      (0 :: [100, 300, 310]) stopInit).2 = 1 :=
  ⟨⟨by decide, by decide⟩,
   (C4_stopped_alert_once_gated
      (update_alert_settings initAlertCfg defaultAlertSettingsPayload) 0 [100, 300, 310]).2.2.1
     (by decide) (by decide)⟩

/-! ## Claim C2: the restart-after-error override is unreachable -/

/-- Helper: the reversed system-log scan only ever writes the literal events
`'Start Gateway'` and `'Stop Gateway'` (never `'start'`). -/
theorem sysScanRev_event_cases (today : List Char) (L : List (List Char)) (r : SysResult) :
    (sysScanRev today L r).gateway_last_event = r.gateway_last_event ∨
    (sysScanRev today L r).gateway_last_event = some (str "Start Gateway") ∨
    (sysScanRev today L r).gateway_last_event = some (str "Stop Gateway") := by
  induction L generalizing r with
  | nil => exact Or.inl rfl
  | cons l L ih =>
    simp only [sysScanRev]
    by_cases h0 : pyStrip l = []
    · rw [if_pos h0]; exact ih r
    · rw [if_neg h0]
      by_cases h1 : containsSub (str "Start Gateway.") (pyStrip l) = true
      · rw [if_pos h1]
        by_cases h2 : r.gateway_status = str "unknown"
        · rw [if_pos h2]; exact Or.inr (Or.inl rfl)
        · rw [if_neg h2]; exact Or.inl rfl
      · rw [if_neg h1]
        by_cases h2 : containsSub (str "Stop Gateway.") (pyStrip l) = true
        · rw [if_pos h2]
          by_cases h3 : r.gateway_status = str "unknown"
          · rw [if_pos h3]; exact Or.inr (Or.inr rfl)
          · rw [if_neg h3]; exact Or.inl rfl
        · rw [if_neg h2]
          by_cases h3 : hbMatch (pyStrip l) = true ∧ r.last_heartbeat = none
          · rw [if_pos h3]
            by_cases h4 : (⟨r.gateway_status, r.gateway_last_event,
                r.gateway_last_event_time, parseLogTime today (pyStrip l),
                r.active_threads⟩ : SysResult).gateway_status = str "unknown"
            · rw [if_pos h4]; exact ih _
            · rw [if_neg h4]; exact ih _
          · rw [if_neg h3]; exact ih r

/-- Helper: `parse_system_log` never reports the event `'start'` (only
`None`, `'Start Gateway'` or `'Stop Gateway'`). -/
theorem parse_system_log_event_ne_start (today : List Char) (fileLines : List (List Char)) :
    (parse_system_log today fileLines).gateway_last_event ≠ some (str "start") := by
  unfold parse_system_log
  by_cases h : readLast100 fileLines = []
  · rw [if_pos h]; decide
  · rw [if_neg h]
    simp only
    rcases sysScanRev_event_cases today (readLast100 fileLines).reverse sysInit with
      hc | hc | hc <;> rw [hc] <;> decide

/-- Helper: when the last event is not the literal `'start'`, the override
leaves the error-log result untouched. -/
theorem applyRestartOverride_noop (today : List Char) (si : SysResult) (ei : ErrorLogResult)
    (h : si.gateway_last_event ≠ some (str "start")) :
    applyRestartOverride today si ei = ei := by
  unfold applyRestartOverride
  split
  · rw [if_neg fun hc => h hc.2]
  · rfl

/-- C2: the claim states that when the system log's most recent lifecycle
event is a gateway start timestamped strictly after the last error, both DB
statuses are overridden to `connected` and the error texts cleared.  In the
code the override tests `gateway_last_event == 'start'` while the parser only
ever produces `'Start Gateway'` (and re-parses the ISO timestamps with an
`HH:MM:SS`-anchored regex that cannot match them), so the override never
fires: `get_status` always passes the error-log scan's DB fields through
unchanged, and on a concrete log pair satisfying the claim's premise the
statuses stay `disconnected`. -/
theorem C2_restart_override_never_fires :
    (∀ (today : List Char) (nowSec : Int) (sysLines errLines : List (List Char)),
      (get_status today nowSec sysLines errLines).hosxp_db_status
        = (parse_error_log today errLines).hosxp_db_status ∧
      (get_status today nowSec sysLines errLines).gateway_db_status
        = (parse_error_log today errLines).gateway_db_status ∧
      (get_status today nowSec sysLines errLines).hosxp_db_last_error
        = (parse_error_log today errLines).hosxp_db_last_error ∧
      (get_status today nowSec sysLines errLines).gateway_db_last_error
        = (parse_error_log today errLines).gateway_db_last_error) ∧
    ((parse_system_log (str "2026-10-12") [str "11:00:00 : Start Gateway."]).gateway_last_event
        = some (str "Start Gateway") ∧
     (parse_error_log (str "2026-10-12")
        [str "10:00:00 : Connection Error => boom"]).gateway_db_status
        = str "disconnected" ∧
     (get_status (str "2026-10-12") 0 [str "11:00:00 : Start Gateway."]
        [str "10:00:00 : Connection Error => boom"]).gateway_db_status
        = str "disconnected" ∧
     (get_status (str "2026-10-12") 0 [str "11:00:00 : Start Gateway."]
        [str "10:00:00 : Connection Error => boom"]).gateway_db_last_error
        = some (str "boom")) := by
  constructor
  · intro today nowSec sysLines errLines
    have hov := applyRestartOverride_noop today (parse_system_log today sysLines)
      (parse_error_log today errLines) (parse_system_log_event_ne_start today sysLines)
    refine ⟨?_, ?_, ?_, ?_⟩ <;> · simp only [get_status]; rw [hov]
  · exact ⟨by decide, by decide, by decide, by decide⟩

/-! ## Claim C3: heartbeat staleness only downgrades `'running'` -/

/-- C3 counterexample: a system log whose last lifecycle marker is
`Stop Gateway.` and which has no heartbeat yields `heartbeat_stale = true`
with `gateway_status = 'stopped'`, not `'unknown'` — refuting the claim that
staleness forces `'unknown'` regardless of the derived value. -/
theorem C3_counterexample :
    (get_status (str "2026-10-12") 0 [str "10:00:00 : Stop Gateway."] []).heartbeat_stale
      = true ∧
    (get_status (str "2026-10-12") 0 [str "10:00:00 : Stop Gateway."] []).gateway_status
      = str "stopped" ∧
    (get_status (str "2026-10-12") 0 [str "10:00:00 : Stop Gateway."] []).gateway_status
      ≠ str "unknown" := by
  refine ⟨by decide, by decide, by decide⟩

/-- C3 (amended): when the heartbeat is stale, `get_status` downgrades the
lifecycle-derived status to `'unknown'` only when that value is `'running'`;
a derived `'stopped'` or `'unknown'` is returned unchanged. -/
theorem C3_stale_downgrades_only_running (today : List Char) (nowSec : Int)
    (sysLines errLines : List (List Char))
    (h : (get_status today nowSec sysLines errLines).heartbeat_stale = true) :
    (get_status today nowSec sysLines errLines).gateway_status =
      (if (parse_system_log today sysLines).gateway_status = str "running"
       then str "unknown"
       else (parse_system_log today sysLines).gateway_status) := by
  simp only [get_status] at h ⊢
  by_cases hr : (parse_system_log today sysLines).gateway_status = str "running"
  · rw [if_pos hr, if_pos ⟨hr, h⟩]
  · rw [if_neg hr, if_neg fun hc => hr hc.1]

/-- Witness for C3's amended theorem at the stale `Stop Gateway.` input. -/
theorem C3_witness :
    (get_status (str "2026-10-12") 0 [str "10:00:00 : Stop Gateway."] []).heartbeat_stale
      = true ∧
    (get_status (str "2026-10-12") 0 [str "10:00:00 : Stop Gateway."] []).gateway_status =
      (if (parse_system_log (str "2026-10-12")
            [str "10:00:00 : Stop Gateway."]).gateway_status = str "running"
       then str "unknown"
       else (parse_system_log (str "2026-10-12")
              [str "10:00:00 : Stop Gateway."]).gateway_status) :=
  ⟨by decide,
   C3_stale_downgrades_only_running (str "2026-10-12") 0
     [str "10:00:00 : Stop Gateway."] [] (by decide)⟩

/-! ## Claim C9: only the last 100 lines are examined -/

/-- Helper: scanning lines free of lifecycle markers never sets an event, and
ends `'running'` exactly when the start state already was `'running'` or some
scanned line matches the heartbeat pattern (else `'unknown'`).  The two side
conditions are the reachable-state invariants of the scan. -/
theorem sysScanRev_no_marker (today : List Char) (L : List (List Char)) (r : SysResult)
    (hL : ∀ l ∈ L, containsSub (str "Start Gateway.") (pyStrip l) = false ∧
          containsSub (str "Stop Gateway.") (pyStrip l) = false)
    (hst : r.gateway_status = str "unknown" ∨ r.gateway_status = str "running")
    (hinv : r.last_heartbeat ≠ none → r.gateway_status = str "running") :
    (sysScanRev today L r).gateway_last_event = r.gateway_last_event ∧
    (sysScanRev today L r).gateway_status =
      (if r.gateway_status = str "running" then str "running"
       else if L.any (fun l => hbMatch (pyStrip l)) then str "running"
       else str "unknown") := by
  induction L generalizing r with
  | nil =>
    refine ⟨rfl, ?_⟩
    show r.gateway_status = _
    rcases hst with h | h
    · rw [h, if_neg (by decide), List.any_nil, if_neg (by decide)]
    · rw [h, if_pos rfl]
  | cons l L ih =>
    have hhd := hL l (List.mem_cons_self l L)
    have htl : ∀ x ∈ L, containsSub (str "Start Gateway.") (pyStrip x) = false ∧
        containsSub (str "Stop Gateway.") (pyStrip x) = false :=
      fun x hx => hL x (List.mem_cons_of_mem l hx)
    simp only [sysScanRev]
    by_cases h0 : pyStrip l = []
    · rw [if_pos h0]
      obtain ⟨he, hs⟩ := ih r htl hst hinv
      refine ⟨he, ?_⟩
      rw [hs, List.any_cons, h0]
      rw [show hbMatch ([] : List Char) = false from rfl, Bool.false_or]
    · rw [if_neg h0, if_neg (by rw [hhd.1]; exact Bool.false_ne_true),
        if_neg (by rw [hhd.2]; exact Bool.false_ne_true)]
      by_cases h3 : hbMatch (pyStrip l) = true ∧ r.last_heartbeat = none
      · rw [if_pos h3]
        by_cases h4 : r.gateway_status = str "unknown"
        · have h4' : (⟨r.gateway_status, r.gateway_last_event, r.gateway_last_event_time,
              parseLogTime today (pyStrip l), r.active_threads⟩ : SysResult).gateway_status
              = str "unknown" := h4
          rw [if_pos h4']
          obtain ⟨he, hs⟩ := ih (⟨str "running", r.gateway_last_event,
            r.gateway_last_event_time, parseLogTime today (pyStrip l),
            r.active_threads⟩ : SysResult) htl (Or.inr rfl) (fun _ => rfl)
          refine ⟨he, ?_⟩
          rw [hs, if_pos rfl,
            if_neg (show ¬ r.gateway_status = str "running" by rw [h4]; decide),
            List.any_cons, h3.1, Bool.true_or, if_pos rfl]
        · have h4' : ¬ (⟨r.gateway_status, r.gateway_last_event, r.gateway_last_event_time,
              parseLogTime today (pyStrip l), r.active_threads⟩ : SysResult).gateway_status
              = str "unknown" := h4
          rw [if_neg h4']
          have hrun : r.gateway_status = str "running" := by
            rcases hst with h | h
            · exact absurd h h4
            · exact h
          obtain ⟨he, hs⟩ := ih (⟨r.gateway_status, r.gateway_last_event,
            r.gateway_last_event_time, parseLogTime today (pyStrip l),
            r.active_threads⟩ : SysResult) htl (Or.inr hrun) (fun _ => hrun)
          refine ⟨he, ?_⟩
          rw [hs]
          show _ = if r.gateway_status = str "running" then _ else _
          rw [if_pos hrun]
          rw [show (⟨r.gateway_status, r.gateway_last_event, r.gateway_last_event_time,
              parseLogTime today (pyStrip l), r.active_threads⟩ : SysResult).gateway_status
              = r.gateway_status from rfl, if_pos hrun]
      · rw [if_neg h3]
        obtain ⟨he, hs⟩ := ih r htl hst hinv
        refine ⟨he, ?_⟩
        rw [hs]
        by_cases hrun : r.gateway_status = str "running"
        · rw [if_pos hrun, if_pos hrun]
        · rw [if_neg hrun, if_neg hrun, List.any_cons]
          have hl : hbMatch (pyStrip l) = false := by
            cases hhb : hbMatch (pyStrip l) with
            | false => rfl
            | true =>
              cases hn : r.last_heartbeat with
              | none => exact absurd ⟨hhb, hn⟩ h3
              | some v =>
                have := hinv (by rw [hn]; exact fun hc => Option.noConfusion hc)
                exact absurd this hrun
          rw [hl, Bool.false_or]

/-- C9 (amended): `parse_system_log` examines only the last 100 lines of the
file: when those lines contain no lifecycle marker, `gateway_last_event` is
`None` and `gateway_status` is `'running'` if some of those lines matches the
heartbeat pattern, else `'unknown'` — even if the file contains an earlier
lifecycle marker. -/
theorem C9_only_last_100_lines (today : List Char) (fileLines : List (List Char))
    (h : ∀ l ∈ readLast100 fileLines,
      containsSub (str "Start Gateway.") (pyStrip l) = false ∧
      containsSub (str "Stop Gateway.") (pyStrip l) = false) :
    (parse_system_log today fileLines).gateway_last_event = none ∧
    (parse_system_log today fileLines).gateway_status =
      (if (readLast100 fileLines).any (fun l => hbMatch (pyStrip l)) then str "running"
       else str "unknown") := by
  unfold parse_system_log
  by_cases hnil : readLast100 fileLines = []
  · rw [if_pos hnil, hnil]
    exact ⟨rfl, rfl⟩
  · rw [if_neg hnil]
    have hrev : ∀ l ∈ (readLast100 fileLines).reverse,
        containsSub (str "Start Gateway.") (pyStrip l) = false ∧
        containsSub (str "Stop Gateway.") (pyStrip l) = false :=
      fun l hl => h l (List.mem_reverse.mp hl)
    obtain ⟨he, hs⟩ := sysScanRev_no_marker today (readLast100 fileLines).reverse sysInit
      hrev (Or.inl rfl) (fun hc => absurd rfl hc)
    refine ⟨he, ?_⟩
    show (sysScanRev today (readLast100 fileLines).reverse sysInit).gateway_status = _
    rw [hs, if_neg (by decide)]
    have hany : ((readLast100 fileLines).reverse.any fun l => hbMatch (pyStrip l))
        = ((readLast100 fileLines).any fun l => hbMatch (pyStrip l)) := by
      rcases hcase : (readLast100 fileLines).any fun l => hbMatch (pyStrip l) with _ | _
      · rw [List.any_eq_false] at hcase ⊢
        intro x hx
        exact hcase x (List.mem_reverse.mp hx)
      · rw [List.any_eq_true] at hcase ⊢
        obtain ⟨x, hx, hb⟩ := hcase
        exact ⟨x, List.mem_reverse.mpr hx, hb⟩
    rw [hany]

/-- The 101-line system log used to refute C9 as stated: a `Start Gateway.`
marker on the first line (outside the final 100 lines), a heartbeat line, and
99 blank lines. -/
def c9File : List (List Char) :=
  str "09:00:00 : Start Gateway." :: str "10:00:00 : 1------------------ = 5" ::
    List.replicate 99 []

/-- C9 counterexample: `c9File`'s only (hence most recent) lifecycle marker
lies before the final 100 lines, yet `parse_system_log` reports `'running'`
(a heartbeat line sits inside the scanned tail), not `'unknown'` as the claim
states. -/
theorem C9_counterexample :
    c9File.length = 101 ∧
    containsSub (str "Start Gateway.") (pyStrip (c9File.headD [])) = true ∧
    (∀ l ∈ readLast100 c9File,
      containsSub (str "Start Gateway.") (pyStrip l) = false ∧
      containsSub (str "Stop Gateway.") (pyStrip l) = false) ∧
    (parse_system_log (str "2026-10-12") c9File).gateway_last_event = none ∧
    (parse_system_log (str "2026-10-12") c9File).gateway_status = str "running" ∧
    (parse_system_log (str "2026-10-12") c9File).gateway_status ≠ str "unknown" := by
  refine ⟨by decide, by decide, by decide, by decide, by decide, by decide⟩

/-- Witness for C9's amended theorem on a marker-free one-line file. -/
theorem C9_witness :
    (∀ l ∈ readLast100 [str "hello"],
      containsSub (str "Start Gateway.") (pyStrip l) = false ∧
      containsSub (str "Stop Gateway.") (pyStrip l) = false) ∧
    ((parse_system_log (str "2026-10-12") [str "hello"]).gateway_last_event = none ∧
     (parse_system_log (str "2026-10-12") [str "hello"]).gateway_status =
      (if (readLast100 [str "hello"]).any (fun l => hbMatch (pyStrip l)) then str "running"
       else str "unknown")) :=
  ⟨by decide, C9_only_last_100_lines (str "2026-10-12") [str "hello"] (by decide)⟩

/-! ## Claim C5: reconnect-OK yields connected statuses with cleared errors -/

/-- The four fields of the scan state that the claim C5 talks about:
connectivity flags true and error texts cleared. -/
def cleanSt (st : ErrSt) : Prop :=
  st.hosxpConnected = true ∧ st.gatewayConnected = true ∧
  st.hosxp_db_last_error = none ∧ st.gateway_db_last_error = none

/-- Helper: the thread-error check never touches the four clean fields. -/
theorem errStepThread_clean (st : ErrSt) (line : List Char) (h : cleanSt st) :
    cleanSt (errStepThread st line) := by
  unfold errStepThread
  split
  · dsimp only
    split
    · exact h
    · exact h
  · exact h

/-- Helper: a reconnect-OK line establishes the clean state whatever the
state before it. -/
theorem errStepOk_clean (st : ErrSt) (line : List Char)
    (h : containsSub (str "ReConnect DB OK.") line = true) :
    cleanSt (errStepOk st line) := by
  unfold errStepOk
  rw [if_pos h]
  exact ⟨rfl, rfl, rfl, rfl⟩

/-- Helper: the reconnect-OK check preserves the clean state. -/
theorem errStepOk_clean_pres (st : ErrSt) (line : List Char) (h : cleanSt st) :
    cleanSt (errStepOk st line) := by
  unfold errStepOk
  split
  · exact ⟨rfl, rfl, rfl, rfl⟩
  · exact h

/-- Helper: a line with no connection-error match leaves the state
untouched by the connection-error check. -/
theorem errStepConn_of_none (today : List Char) (st : ErrSt) (line : List Char)
    (h : connErrMatch line = none) : errStepConn today st line = st := by
  unfold errStepConn
  rw [h]

/-- Helper: a line with no reconnect-error match leaves the state untouched
by the reconnect-error check. -/
theorem errStepRecon_of_none (today : List Char) (st : ErrSt) (line : List Char)
    (h : reconMatch line = none) : errStepRecon today st line = st := by
  unfold errStepRecon
  rw [h]

/-- Helper: processing a reconnect-OK line ends in the clean state whatever
the state before it (the later thread-error check cannot undo it). -/
theorem errStep_clean_of_ok (today : List Char) (st : ErrSt) (l : List Char)
    (h : containsSub (str "ReConnect DB OK.") (pyStrip l) = true) :
    cleanSt (errStep today st l) := by
  unfold errStep
  have hne : ¬ pyStrip l = [] := by
    intro h0
    rw [h0] at h
    exact absurd h (by decide)
  rw [if_neg hne]
  exact errStepThread_clean _ _ (errStepOk_clean _ _ h)

/-- Helper: a line matching neither error pattern preserves the clean
state. -/
theorem errStep_clean_pres (today : List Char) (st : ErrSt) (l : List Char)
    (hc : cleanSt st) (h1 : connErrMatch (pyStrip l) = none)
    (h2 : reconMatch (pyStrip l) = none) : cleanSt (errStep today st l) := by
  unfold errStep
  by_cases h0 : pyStrip l = []
  · rw [if_pos h0]; exact hc
  · rw [if_neg h0, errStepConn_of_none today st _ h1, errStepRecon_of_none today st _ h2]
    exact errStepThread_clean _ _ (errStepOk_clean_pres _ _ hc)

/-- Helper: folding over error-free lines preserves the clean state. -/
theorem foldl_errStep_clean (today : List Char) (L : List (List Char)) (st : ErrSt)
    (hc : cleanSt st)
    (hL : ∀ l ∈ L, connErrMatch (pyStrip l) = none ∧ reconMatch (pyStrip l) = none) :
    cleanSt (L.foldl (errStep today) st) := by
  induction L generalizing st with
  | nil => exact hc
  | cons l L ih =>
    have hhd := hL l (List.mem_cons_self l L)
    exact ih (errStep today st l) (errStep_clean_pres today st l hc hhd.1 hhd.2)
      (fun x hx => hL x (List.mem_cons_of_mem l hx))

/-- Helper: folding over any prefix, then a reconnect-OK line, then
error-free lines, ends clean. -/
theorem foldl_errStep_after_ok (today : List Char) (A : List (List Char)) (ok : List Char)
    (B : List (List Char)) (st : ErrSt)
    (hok : containsSub (str "ReConnect DB OK.") (pyStrip ok) = true)
    (hB : ∀ l ∈ B, connErrMatch (pyStrip l) = none ∧ reconMatch (pyStrip l) = none) :
    cleanSt ((A ++ ok :: B).foldl (errStep today) st) := by
  rw [List.foldl_append, List.foldl_cons]
  exact foldl_errStep_clean today B _ (errStep_clean_of_ok today _ ok hok) hB

/-- Helper: splitting what survives the 100-line truncation of a list with a
distinguished element: either the element (with everything after it)
survives, or only a suffix of what follows it does. -/
theorem readLast100_split (A : List (List Char)) (x : List Char) (B : List (List Char)) :
    (∃ A', readLast100 (A ++ x :: B) = A' ++ x :: B) ∨
    (∃ n, readLast100 (A ++ x :: B) = B.drop n) := by
  unfold readLast100
  by_cases hlen : (A ++ x :: B).length > 100
  · rw [if_pos hlen]
    by_cases hk : (A ++ x :: B).length - 100 ≤ A.length
    · exact Or.inl ⟨A.drop ((A ++ x :: B).length - 100),
        List.drop_append_of_le_length hk⟩
    · right
      set k := (A ++ x :: B).length - 100 with hkdef
      have hk2 : k = A.length + (k - A.length) := by omega
      have hj : 1 ≤ k - A.length := by omega
      refine ⟨k - A.length - 1, ?_⟩
      rw [hk2, List.drop_append]
      rw [show k - A.length = (k - A.length - 1) + 1 by omega, List.drop_succ_cons]
      congr 1
      omega
  · rw [if_neg hlen]
    exact Or.inl ⟨A, rfl⟩

/-- C5: an error log containing a connection-error (or reconnect-error)
line, later a `ReConnect DB OK.` line, and no error line after it, parses to
both DB statuses `connected` with both error texts cleared.  (The 100-line
tail truncation cannot break this: whatever survives of the log still ends
with the OK line followed by error-free lines, or consists solely of
error-free lines over the initially-connected state.) -/
theorem C5_reconnect_ok_clears (today : List Char) (pre : List (List Char))
    (ok : List Char) (post : List (List Char))
    (hpre : ∃ e ∈ pre, connErrMatch (pyStrip e) ≠ none ∨ reconMatch (pyStrip e) ≠ none)
    (hok : containsSub (str "ReConnect DB OK.") (pyStrip ok) = true)
    (hpost : ∀ l ∈ post, connErrMatch (pyStrip l) = none ∧ reconMatch (pyStrip l) = none) :
    (parse_error_log today (pre ++ ok :: post)).hosxp_db_status = str "connected" ∧
    (parse_error_log today (pre ++ ok :: post)).gateway_db_status = str "connected" ∧
    (parse_error_log today (pre ++ ok :: post)).hosxp_db_last_error = none ∧
    (parse_error_log today (pre ++ ok :: post)).gateway_db_last_error = none := by
  have hclean : cleanSt ((readLast100 (pre ++ ok :: post)).foldl (errStep today) errInit) := by
    rcases readLast100_split pre ok post with ⟨A', hA⟩ | ⟨n, hn⟩
    · rw [hA]
      exact foldl_errStep_after_ok today A' ok post errInit hok hpost
    · rw [hn]
      exact foldl_errStep_clean today (post.drop n) errInit ⟨rfl, rfl, rfl, rfl⟩
        (fun l hl => hpost l (List.mem_of_mem_drop hl))
  unfold parse_error_log
  by_cases hnil : readLast100 (pre ++ ok :: post) = []
  · rw [if_pos hnil]
    exact ⟨rfl, rfl, rfl, rfl⟩
  · rw [if_neg hnil]
    obtain ⟨h1, h2, h3, h4⟩ := hclean
    exact ⟨by simp only; rw [h1]; rfl, by simp only; rw [h2]; rfl,
      by simp only; rw [h3], by simp only; rw [h4]⟩

/-- Witness for C5: a concrete error log with one connection error followed
by a reconnect-OK line. -/
theorem C5_witness :
    ((∃ e ∈ [str "10:00:00 : Connection Error => boom"],
        connErrMatch (pyStrip e) ≠ none ∨ reconMatch (pyStrip e) ≠ none) ∧
     containsSub (str "ReConnect DB OK.") (pyStrip (str "10:05:00 : ReConnect DB OK."))
       = true) ∧
    ((parse_error_log (str "2026-10-12")
        ([str "10:00:00 : Connection Error => boom"]
          ++ str "10:05:00 : ReConnect DB OK." :: [])).hosxp_db_status = str "connected" ∧
     (parse_error_log (str "2026-10-12")
        ([str "10:00:00 : Connection Error => boom"]
          ++ str "10:05:00 : ReConnect DB OK." :: [])).gateway_db_status = str "connected" ∧
     (parse_error_log (str "2026-10-12")
        ([str "10:00:00 : Connection Error => boom"]
          ++ str "10:05:00 : ReConnect DB OK." :: [])).hosxp_db_last_error = none ∧
     (parse_error_log (str "2026-10-12")
        ([str "10:00:00 : Connection Error => boom"]
          ++ str "10:05:00 : ReConnect DB OK." :: [])).gateway_db_last_error = none) :=
  ⟨⟨by decide, by decide⟩,
   C5_reconnect_ok_clears (str "2026-10-12") [str "10:00:00 : Connection Error => boom"]
     (str "10:05:00 : ReConnect DB OK.") [] (by decide) (by decide) (by decide)⟩

/-! ## Claim C6: thread-error list bounds, dedup, and order -/

/-- Helper: the connection-error check never touches `thread_errors`. -/
theorem errStepConn_te (today : List Char) (st : ErrSt) (line : List Char) :
    (errStepConn today st line).thread_errors = st.thread_errors := by
  unfold errStepConn
  split
  · split
    · rfl
    · rfl
  · rfl

/-- Helper: the reconnect-error check never touches `thread_errors`. -/
theorem errStepRecon_te (today : List Char) (st : ErrSt) (line : List Char) :
    (errStepRecon today st line).thread_errors = st.thread_errors := by
  unfold errStepRecon
  split
  · split
    · rfl
    · rfl
  · rfl

/-- Helper: the reconnect-OK check never touches `thread_errors`. -/
theorem errStepOk_te (st : ErrSt) (line : List Char) :
    (errStepOk st line).thread_errors = st.thread_errors := by
  unfold errStepOk
  split
  · rfl
  · rfl

/-- Helper: one thread-error check keeps the list within five entries and
duplicate-free. -/
theorem errStepThread_inv (st : ErrSt) (line : List Char)
    (h : st.thread_errors.length ≤ 5 ∧ st.thread_errors.Nodup) :
    (errStepThread st line).thread_errors.length ≤ 5 ∧
    (errStepThread st line).thread_errors.Nodup := by
  unfold errStepThread
  split
  case h_2 => exact h
  case h_1 ty tid msg _ =>
    dsimp only
    split
    · exact h
    · rename_i hmem
      have hnodup : (st.thread_errors ++ [ty ++ str "[" ++ tid ++ str "]: "
          ++ List.take 100 msg]).Nodup := by
        refine List.Nodup.append h.2 (List.nodup_singleton _) ?_
        intro a ha hb
        rw [List.mem_singleton] at hb
        subst hb
        exact hmem ha
      constructor
      · dsimp only
        split
        · rw [List.length_drop]
          omega
        · rename_i hle
          rw [List.length_append] at hle ⊢
          omega
      · dsimp only
        split
        · exact List.Nodup.sublist (List.drop_sublist _ _) hnodup
        · exact hnodup

/-- Helper: every scan step keeps the list within five entries and
duplicate-free. -/
theorem errStep_inv (today : List Char) (st : ErrSt) (l : List Char)
    (h : st.thread_errors.length ≤ 5 ∧ st.thread_errors.Nodup) :
    (errStep today st l).thread_errors.length ≤ 5 ∧
    (errStep today st l).thread_errors.Nodup := by
  unfold errStep
  by_cases h0 : pyStrip l = []
  · rw [if_pos h0]; exact h
  · rw [if_neg h0]
    apply errStepThread_inv
    rw [errStepOk_te, errStepRecon_te, errStepConn_te]
    exact h

/-- C6 (amended): for every error log, `thread_errors` has at most five
entries and contains no duplicates.  (The order is that of most recent
insertion: an entry evicted by the five-entry cap is re-appended at the end
when its error recurs, so the order of first occurrence is not always
preserved — see `C6_counterexample`.) -/
theorem C6_thread_errors_bounded_nodup (today : List Char) (fileLines : List (List Char)) :
    (parse_error_log today fileLines).thread_errors.length ≤ 5 ∧
    (parse_error_log today fileLines).thread_errors.Nodup := by
  unfold parse_error_log
  by_cases hnil : readLast100 fileLines = []
  · rw [if_pos hnil]
    exact ⟨by decide, List.nodup_nil⟩
  · rw [if_neg hnil]
    have : ∀ (L : List (List Char)) (st : ErrSt),
        st.thread_errors.length ≤ 5 ∧ st.thread_errors.Nodup →
        (L.foldl (errStep today) st).thread_errors.length ≤ 5 ∧
        (L.foldl (errStep today) st).thread_errors.Nodup := by
      intro L
      induction L with
      | nil => exact fun st h => h
      | cons l L ih => exact fun st h => ih (errStep today st l) (errStep_inv today st l h)
    exact this (readLast100 fileLines) errInit ⟨by decide, List.nodup_nil⟩

/-- The seven-line error log used to refute the first-occurrence-order part
of C6: six distinct thread errors (the sixth evicts the first), then the
first error again. -/
def c6Lines : List (List Char) :=
  [str "10:00:01 : Thread Export[1] Error => E1",
   str "10:00:02 : Thread Export[2] Error => E2",
   str "10:00:03 : Thread Export[3] Error => E3",
   str "10:00:04 : Thread Export[4] Error => E4",
   str "10:00:05 : Thread Export[5] Error => E5",
   str "10:00:06 : Thread Export[6] Error => E6",
   str "10:00:07 : Thread Export[1] Error => E1"]

/-- C6 counterexample: on `c6Lines` the resulting list is
`[Export[3], Export[4], Export[5], Export[6], Export[1]]` — the entry for
`Export[1]`, whose first occurrence is the earliest of all, sits last, so the
list is not in first-occurrence scan order (which would put `Export[1]`
first). -/
theorem C6_counterexample :
    (parse_error_log (str "2026-10-12") c6Lines).thread_errors
      = [str "Export[3]: E3", str "Export[4]: E4", str "Export[5]: E5",
         str "Export[6]: E6", str "Export[1]: E1"] ∧
    (parse_error_log (str "2026-10-12") c6Lines).thread_errors
      ≠ [str "Export[1]: E1", str "Export[3]: E3", str "Export[4]: E4",
         str "Export[5]: E5", str "Export[6]: E6"] := by
  refine ⟨by decide, by decide⟩
